import Mathlib

/-!
Verification development for ipswdl2: a batch downloader that fetches the newest
firmware image per device and materializes it crash-safely on disk.

The Rust sources (src/main.rs, src/client.rs, src/downloader.rs, src/apiJsonTypes.rs)
are shallowly embedded below:
* machine integers (u32/u64 counters and sizes) are modelled as Nat — no value in this
  program can plausibly approach 2^32 (device counts, byte counts of one firmware image);
* the filesystem is an explicit state (files as an association list from paths to byte
  lists, plus a list of existing directories); a path is a list of components;
* the network and the tokio select loop are modelled by an environment: the result of
  opening the download stream, and the ordered list of events the select loop observes
  (a chunk arriving together with the success of its write_all, a stream error, stream
  exhaustion together with the success of create_dir_all / File::create / io::copy, or
  the ctrl-c cancellation channel firing).
-/

namespace Ipswdl

/-- Byte strings are lists of byte values. -/
abbrev Bytes := List Nat

/-- A filesystem path, as a list of components (PathBuf in the source). -/
abbrev Path := List String

/-! ## Data model (src/apiJsonTypes.rs) -/

/-- `Device` from apiJsonTypes.rs. -/
structure Device where
  name : String
  identifier : String
  platform : String
  cpid : Nat
  bdid : Nat
deriving DecidableEq, Repr

/-- `Firmware` from apiJsonTypes.rs (uploaddate modelled as a numeric timestamp). -/
structure Firmware where
  identifier : String
  version : String
  buildid : String
  sha1sum : String
  md5sum : String
  filesize : Nat
  url : String
  uploaddate : Nat
deriving DecidableEq, Repr

/-- `FirmwareListing` from apiJsonTypes.rs. -/
structure FirmwareListing where
  name : String
  identifier : String
  platform : String
  boardconfig : String
  cpid : Nat
  bdid : Nat
  firmwares : List Firmware
deriving DecidableEq, Repr

/-- `CliOpts` from main.rs. -/
structure CliOpts where
  download_path : Path
  delete_old_fw : Bool
  download_all : Bool
  filter_term : Option String
  log_path : Option Path
  list_device_names : Bool
deriving DecidableEq, Repr

/-! ## Filesystem state -/

/-- Filesystem: regular files (path, contents) plus existing directories. -/
structure FS where
  files : List (Path × Bytes)
  dirs : List Path
deriving DecidableEq, Repr

/-- `path.exists()`: true if a file or a directory is present at the path. -/
def pathExists (fs : FS) (p : Path) : Bool :=
  fs.files.any (fun e => e.1 == p) || fs.dirs.any (fun d => d == p)

/-- Contents of the regular file at a path, when one exists. -/
def fileContents (fs : FS) (p : Path) : Option Bytes :=
  (fs.files.find? (fun e => e.1 == p)).map (fun e => e.2)

/-- `File::create` followed by writing `content`: creates or truncates the file. -/
def writeFile (fs : FS) (p : Path) (content : Bytes) : FS :=
  { fs with files := (p, content) :: fs.files.filter (fun e => !(e.1 == p)) }

/-- `create_dir_all`: creates the directory and all of its parents (idempotent). -/
def mkDirAll (fs : FS) (dir : Path) : FS :=
  { fs with dirs := (List.range dir.length).map (fun i => dir.take (i + 1)) ++ fs.dirs }

/-- True if `p` names a direct child of directory `dir`. -/
def isDirectChild (p dir : Path) : Bool :=
  p.dropLast == dir && decide (p ≠ [])

/-- The delete-old-fw pass of download_firmware (downloader.rs lines 180-208):
`read_dir` on the device directory succeeds only if the directory exists, and then
every regular file directly inside it is removed (`remove_file` fails on
subdirectory entries, which the code only logs). -/
def deleteOldFiles (fs : FS) (dir : Path) : FS :=
  if fs.dirs.any (fun d => d == dir) then
    { fs with files := fs.files.filter (fun e => !(isDirectChild e.1 dir)) }
  else fs

/-! ## Name sanitization (src/client.rs, get_device_firmware)

The source runs `name.replace('/', "z")` then `.replace('\\', "z")`; replacing a
single character by a single character is a character-wise map. -/

/-- One character of `replace('/', "z")`. -/
def sanitizeSlash (c : Char) : Char := if c = '/' then 'z' else c

/-- One character of `replace('\\', "z")`. -/
def sanitizeBackslash (c : Char) : Char := if c = '\\' then 'z' else c

/-- The device-name sanitization performed by `get_device_firmware`. -/
def sanitizeName (s : String) : String :=
  String.mk ((s.data.map sanitizeSlash).map sanitizeBackslash)

/-! ## The materializer (src/downloader.rs, download_firmware) -/

/-- Observable outcome of one `download_firmware` invocation. The Rust function
returns unit; these variants distinguish its observable control-flow exits
(§3 DownloadOutcome of the spec, plus the panic of `byte.unwrap()` on a stream
error and a marker for an event trace that ends without a terminal event). -/
inductive Outcome where
  | skippedNoFirmware
  | skippedAlreadyDownloaded
  | failedRemote
  | failedIo
  | completed (bytes : Nat)
  | cancelled
  | panicked
  | hung
deriving DecidableEq, Repr

/-- One resolution of the `tokio::select!` in the download loop. -/
inductive LoopEvent where
  /-- `dl_stream.next()` yielded `Some(Ok(bytes))`; `writeOk` is whether the
  subsequent `temp_file_stream.write_all` succeeds. -/
  | chunkOk (bytes : Bytes) (writeOk : Bool)
  /-- `dl_stream.next()` yielded `Some(Err(_))`. -/
  | chunkErr
  /-- `dl_stream.next()` yielded `None`; the flags give the success of
  `create_dir_all`, `File::create` and `io::copy` in that branch. -/
  | streamEnd (dirOk createOk copyOk : Bool)
  /-- `self.ctrlc_received.changed()` resolved. -/
  | cancel
deriving DecidableEq, Repr

/-- Environment of one materialize call: the result of `client.download_ipsw`
(declared length on success) and the ordered select-loop events. -/
structure Env where
  dlStreamResult : Option Nat
  events : List LoopEvent
deriving DecidableEq, Repr

/-- Rust `BufWriter::write` with capacity `cap` (default 8192), as used by
`write_all` for one chunk: flush the internal buffer when it cannot absorb the
chunk, then either write the chunk straight to disk (chunk at least as large as
the capacity) or append it to the buffer. Returns (bytes on disk, buffer). -/
def bufWrite (cap : Nat) (disk buf bytes : Bytes) : Bytes × Bytes :=
  let flushed := if cap < buf.length + bytes.length then (disk ++ buf, ([] : Bytes)) else (disk, buf)
  if cap ≤ bytes.length then (flushed.1 ++ bytes, flushed.2) else (flushed.1, flushed.2 ++ bytes)

/-- The select loop of `download_firmware` (downloader.rs lines 251-322).
State: the temp file's on-disk bytes and the BufWriter buffer. The final copy
reads the temp file through the independent `reopen()` handle, so it sees only
`disk` — the BufWriter wrapping the temp file is dropped (and flushed) only
after the function returns. On a write_all failure the code logs and continues
the loop. On stream exhaustion it runs `create_dir_all` and `File::create`
(both attempted, then checked together) and copies the staged bytes. -/
def runLoop (cap : Nat) (fp : Path) : FS → Bytes → Bytes → List LoopEvent → FS × Outcome × Bool
  | fs, _, _, [] => (fs, Outcome.hung, false)
  | fs, _, _, LoopEvent.cancel :: _ => (fs, Outcome.cancelled, true)
  | fs, _, _, LoopEvent.chunkErr :: _ => (fs, Outcome.panicked, false)
  | fs, disk, buf, LoopEvent.chunkOk bytes wok :: es =>
    if wok then
      let wb := bufWrite cap disk buf bytes
      runLoop cap fp fs wb.1 wb.2 es
    else
      runLoop cap fp fs disk buf es
  | fs, disk, _, LoopEvent.streamEnd dirOk createOk copyOk :: _ =>
    let fs1 := if dirOk then mkDirAll fs fp.dropLast else fs
    let fs2 := if createOk then writeFile fs1 fp [] else fs1
    if !dirOk || !createOk then (fs2, Outcome.failedIo, false)
    else if !copyOk then (fs2, Outcome.failedIo, false)
    else (writeFile fs2 fp disk, Outcome.completed disk.length, false)

/-- The device directory `download_path / name` used by download_firmware. -/
def deviceDir (opt : CliOpts) (name : String) : Path :=
  opt.download_path ++ [name]

/-- The final destination path `download_path / name / "{version}.ipsw"`. -/
def finalPathOf (opt : CliOpts) (name version : String) : Path :=
  deviceDir opt name ++ [version ++ ".ipsw"]

/-- Result of one `download_firmware` call: filesystem, outcome, the
`kill_program` flag, and how many times `client.download_ipsw` was called. -/
structure DlResult where
  fs : FS
  outcome : Outcome
  kill : Bool
  netCalls : Nat
deriving DecidableEq, Repr

/-- Placeholder firmware for the (guarded, unreachable) `firmwares[0]` access. -/
def defaultFirmware : Firmware :=
  ⟨"", "", "", "", "", 0, "", 0⟩

/-- `Downloader::download_firmware` (downloader.rs lines 150-323). The guarded
`fw.firmwares[0]` index is modelled with `headD` behind the emptiness check. -/
def download_firmware (cap : Nat) (fs : FS) (opt : CliOpts) (fw : FirmwareListing)
    (env : Env) : DlResult :=
  if fw.firmwares.isEmpty then ⟨fs, Outcome.skippedNoFirmware, false, 0⟩
  else
    let f0 := fw.firmwares.headD defaultFirmware
    let fp := finalPathOf opt fw.name f0.version
    if pathExists fs fp then ⟨fs, Outcome.skippedAlreadyDownloaded, false, 0⟩
    else
      let fs1 := if opt.delete_old_fw then deleteOldFiles fs (deviceDir opt fw.name) else fs
      match env.dlStreamResult with
      | none => ⟨fs1, Outcome.failedRemote, false, 1⟩
      | some _ =>
        let r := runLoop cap fp fs1 [] [] env.events
        ⟨r.1, r.2.1, r.2.2, 1⟩

/-! ## The orchestrator (src/downloader.rs, Downloader::begin) -/

/-- Console lines relevant to the orchestrator claims: the per-device
`Ended work on: name (done/total)` line and the final `Finished in N minutes.`
summary line. -/
inductive OutLine where
  | progress (device : String) (done total : Nat)
  | finished
deriving DecidableEq, Repr

/-- Network environment for one device iteration: the result of
`client.get_device_firmware` and, when it succeeds, the materializer's
environment. -/
structure DeviceEnv where
  fwResult : Option FirmwareListing
  dlEnv : Env
deriving DecidableEq, Repr

/-- True on the panicking outcome (an uncaught `byte.unwrap()` unwinds past
`begin`, emitting no further lines). -/
def isPanicked : Outcome → Bool
  | Outcome.panicked => true
  | _ => false

/-- One device iteration of `begin`: fetch the listing; on success run
`download_firmware`; return the new filesystem and whether the iteration
terminates the loop early (panic unwinding, or `kill_program` set). A fetch
failure is only reported (`report_err`) and never terminates the loop. -/
def deviceStep (cap : Nat) (opt : CliOpts) (fs : FS) (e : DeviceEnv) : FS × Bool :=
  match e.fwResult with
  | none => (fs, false)
  | some fw =>
    let dl := download_firmware cap fs opt fw e.dlEnv
    (dl.fs, isPanicked dl.outcome || dl.kill)

/-- Result of the device loop of `begin`. `early` records whether the loop was
left through an early `return` (cancellation) or a panic unwind. -/
structure LoopOut where
  fs : FS
  done : Nat
  lines : List OutLine
  fetched : List String
  early : Bool
deriving DecidableEq, Repr

/-- The device loop of `Downloader::begin` (downloader.rs lines 92-138). Per
device: fetch and download, then `if self.kill_program { return; }` — which
skips both `after_fw_download` (done increment and progress line) and the
final summary — otherwise `after_fw_download` runs. After the last device the
`Finished in N minutes.` summary line is printed. `envs` supplies the network
environment of each fetch in order (exhaustion behaves as a fetch failure). -/
def beginLoop (cap : Nat) (opt : CliOpts) (total : Nat) :
    FS → Nat → List Device → List DeviceEnv → LoopOut
  | fs, done, [], _ => ⟨fs, done, [OutLine.finished], [], false⟩
  | fs, done, d :: ds, envs =>
    let st := deviceStep cap opt fs (envs.headD ⟨none, ⟨none, []⟩⟩)
    if st.2 then ⟨st.1, done, [], [d.name], true⟩
    else
      let r := beginLoop cap opt total st.1 (done + 1) ds envs.tail
      ⟨r.fs, r.done, OutLine.progress d.name (done + 1) total :: r.lines,
        d.name :: r.fetched, r.early⟩

/-- Case-sensitive contiguous-substring test at the character level. -/
def charsContain : List Char → List Char → Bool
  | hay, pat =>
    if pat.isPrefixOf hay then true
    else
      match hay with
      | [] => false
      | _ :: t => charsContain t pat

/-- Rust `str::contains` with a string pattern: case-sensitive substring test
(UTF-8 is self-synchronizing, so the byte-level search of the source equals
this character-level one). -/
def strContainsSub (hay pat : String) : Bool :=
  charsContain hay.data pat.data

/-- Result of a whole `begin` run. -/
structure BeginOut where
  fs : FS
  done : Nat
  total : Nat
  lines : List OutLine
  fetched : List String
  early : Bool
deriving DecidableEq, Repr

/-- `Downloader::begin` (downloader.rs lines 76-139): with a filter term, the
device list and the `total_todo` counter are restricted to devices whose name
contains the term; without one, all devices are processed and `total_todo`
keeps the value `devices.len()` set by `Downloader::new`. -/
def Downloader.begin (cap : Nat) (fs : FS) (opt : CliOpts) (devices : List Device)
    (envs : List DeviceEnv) : BeginOut :=
  match opt.filter_term with
  | some filter =>
    let filtered := devices.filter (fun d => strContainsSub d.name filter)
    let r := beginLoop cap opt filtered.length fs 0 filtered envs
    ⟨r.fs, r.done, filtered.length, r.lines, r.fetched, r.early⟩
  | none =>
    let r := beginLoop cap opt devices.length fs 0 devices envs
    ⟨r.fs, r.done, devices.length, r.lines, r.fetched, r.early⟩

/-! ## The singleton guard (src/downloader.rs, Downloader::new and Drop) -/

/-- Process-global state for the singleton check: the `DOWNLOADER_CREATED`
flag and the number of OS ctrl-c hooks that have been installed. -/
structure ProcState where
  downloaderCreated : Bool
  hooksInstalled : Nat
deriving DecidableEq, Repr

/-- `Downloader::new` (downloader.rs lines 45-73): panics (modelled as
`Except.error`) when a downloader is already alive, before installing any
hook; otherwise marks the singleton live and binds the ctrl-c handler via
`ctrlc::set_handler(...).expect("Failed to make the ctrlc handle")`. A ctrl-c
handler can be bound at most once per process (a second `set_handler` call
returns the multiple-handlers error and is never unbound), so the bind
succeeds only when no hook has ever been installed in this process; its
failure hits the `.expect`, i.e. panics. -/
def downloaderNew (st : ProcState) : Except String ProcState :=
  if st.downloaderCreated then
    Except.error "Created two Downloader instances!"
  else if st.hooksInstalled != 0 then
    Except.error "Failed to make the ctrlc handle"
  else
    Except.ok ⟨true, st.hooksInstalled + 1⟩

/-- `Drop for Downloader` (downloader.rs lines 355-362): resets the flag. -/
def downloaderDrop (st : ProcState) : ProcState :=
  ⟨false, st.hooksInstalled⟩

/-! ## Concrete fixtures used by witnesses and counterexamples -/

/-- A firmware entry like Scenario A of the spec. -/
def fw160 : Firmware := ⟨"iPhone1,1", "16.0", "X1", "", "", 100, "", 0⟩

/-- A one-entry firmware listing for device "iPhone 1". -/
def listingA : FirmwareListing := ⟨"iPhone 1", "iPhone1,1", "ios", "", 1, 2, [fw160]⟩

/-- Options for a download-all run into ./ipsw. -/
def optAll : CliOpts := ⟨["ipsw"], false, true, none, none, false⟩

/-- Options for a filtered run with filter term "iPad". -/
def optFilterIPad : CliOpts := ⟨["ipsw"], false, false, some "iPad", none, false⟩

/-- An empty filesystem. -/
def fs0 : FS := ⟨[], []⟩

/-- The computed final path of listingA under optAll. -/
def finalPathA : Path := ["ipsw", "iPhone 1", "16.0.ipsw"]

/-- Device "iPhone 1". -/
def dev1 : Device := ⟨"iPhone 1", "iPhone1,1", "ios", 1, 2⟩

/-- Device "iPad Pro". -/
def devIPad : Device := ⟨"iPad Pro", "iPad8,1", "ios", 3, 4⟩

/-- A device environment whose firmware fetch fails. -/
def envFetchErr : DeviceEnv := ⟨none, ⟨none, []⟩⟩

/-- A device environment whose download is cancelled by ctrl-c mid-stream. -/
def envCancelDev : DeviceEnv :=
  ⟨some listingA, ⟨some 100, [LoopEvent.cancel]⟩⟩

/-- A 100-byte chunk. -/
def chunk100 : Bytes := List.replicate 100 7

/-- Environment delivering exactly 100 declared bytes in one chunk, draining
without cancellation, with all local I/O succeeding. -/
def envC2 : Env :=
  ⟨some 100, [LoopEvent.chunkOk chunk100 true, LoopEvent.streamEnd true true true]⟩

/-- Environment whose first chunk's write_all fails, after which the stream
drains with all remaining I/O succeeding. -/
def envC3 : Env :=
  ⟨some 100, [LoopEvent.chunkOk [1, 2, 3] false, LoopEvent.streamEnd true true true]⟩

/-- Environment in which cancellation is observed after one chunk. -/
def envC1 : Env :=
  ⟨some 100, [LoopEvent.chunkOk [1, 2, 3] true, LoopEvent.cancel]⟩

/-! ## Helper lemmas -/

/-- The cancellation branch of the select loop is reached before stream
exhaustion (and before any stream error, which would panic instead): the trace
is a run of successfully raced chunks followed by the ctrl-c event. -/
def reachesCancelB : List LoopEvent → Bool
  | [] => false
  | LoopEvent.cancel :: _ => true
  | LoopEvent.chunkOk _ _ :: es => reachesCancelB es
  | LoopEvent.chunkErr :: _ => false
  | LoopEvent.streamEnd _ _ _ :: _ => false

theorem any_filter_eq_false {α : Type} (p q : α → Bool) (l : List α)
    (h : l.any q = false) : (l.filter p).any q = false := by
  induction l with
  | nil => rfl
  | cons a t ih =>
    rw [List.any_cons, Bool.or_eq_false_iff] at h
    rw [List.filter_cons]
    by_cases hp : p a = true
    · rw [if_pos hp, List.any_cons, Bool.or_eq_false_iff]
      exact ⟨h.1, ih h.2⟩
    · rw [if_neg hp]
      exact ih h.2

/-- Deleting stale files never makes a path exist. -/
theorem pathExists_deleteOldFiles (fs : FS) (dir p : Path)
    (h : pathExists fs p = false) : pathExists (deleteOldFiles fs dir) p = false := by
  rw [pathExists, Bool.or_eq_false_iff] at h
  rw [deleteOldFiles]
  split
  · rw [pathExists, Bool.or_eq_false_iff]
    exact ⟨any_filter_eq_false _ _ _ h.1, h.2⟩
  · rw [pathExists, Bool.or_eq_false_iff]
    exact h

/-- When the loop observes cancellation before stream exhaustion it leaves the
filesystem untouched, reports no completion, and sets `kill_program`. -/
theorem runLoop_cancel (cap : Nat) (fp : Path) :
    ∀ (es : List LoopEvent) (fs : FS) (disk buf : Bytes),
    reachesCancelB es = true →
    runLoop cap fp fs disk buf es = (fs, Outcome.cancelled, true) := by
  intro es
  induction es with
  | nil =>
    intro fs disk buf h
    exact absurd h (by rw [reachesCancelB]; exact Bool.false_ne_true)
  | cons e t ih =>
    intro fs disk buf h
    cases e with
    | cancel => rfl
    | chunkErr =>
      rw [reachesCancelB] at h
      exact absurd h Bool.false_ne_true
    | streamEnd a b c =>
      rw [reachesCancelB] at h
      exact absurd h Bool.false_ne_true
    | chunkOk bytes wok =>
      rw [reachesCancelB] at h
      rw [runLoop]
      by_cases hw : wok = true
      · rw [if_pos hw]
        exact ih fs _ _ h
      · rw [if_neg hw]
        exact ih fs disk buf h

/-! ## Claim theorems -/

/-- Claim C1: for every firmware listing whose download is started (the listing
is non-empty, the final path is absent so the skip branch is not taken, and the
download stream was opened), if the cancellation signal is observed before the
download stream is exhausted, download_firmware returns with outcome Cancelled,
sets kill_program, and no file or directory exists at the computed final
destination path — the temporary stage is never promoted. -/
theorem cancel_observed_never_creates_final_path
    (cap : Nat) (fs : FS) (opt : CliOpts) (fw : FirmwareListing) (env : Env)
    (f0 : Firmware) (fwtl : List Firmware) (sz : Nat)
    (hfw : fw.firmwares = f0 :: fwtl)
    (habs : pathExists fs (finalPathOf opt fw.name f0.version) = false)
    (hstream : env.dlStreamResult = some sz)
    (hcancel : reachesCancelB env.events = true) :
    (download_firmware cap fs opt fw env).outcome = Outcome.cancelled ∧
    (download_firmware cap fs opt fw env).kill = true ∧
    pathExists (download_firmware cap fs opt fw env).fs
      (finalPathOf opt fw.name f0.version) = false := by
  have hne : fw.firmwares.isEmpty = false := by rw [hfw]; rfl
  have hhead : fw.firmwares.headD defaultFirmware = f0 := by rw [hfw]; rfl
  have hrun := runLoop_cancel cap (finalPathOf opt fw.name f0.version) env.events
  simp only [download_firmware, hne, hhead, habs, hstream, Bool.false_eq_true, if_false]
  by_cases hdel : opt.delete_old_fw = true
  · rw [if_pos hdel, hrun _ _ _ hcancel]
    exact ⟨rfl, rfl, pathExists_deleteOldFiles fs (deviceDir opt fw.name) _ habs⟩
  · rw [if_neg hdel, hrun _ _ _ hcancel]
    exact ⟨rfl, rfl, habs⟩

/-- Witness for C1 at a concrete run: one chunk arrives, then ctrl-c. -/
theorem cancel_observed_never_creates_final_path_witness :
    (download_firmware 8192 fs0 optAll listingA envC1).outcome = Outcome.cancelled ∧
    (download_firmware 8192 fs0 optAll listingA envC1).kill = true ∧
    pathExists (download_firmware 8192 fs0 optAll listingA envC1).fs
      (finalPathOf optAll listingA.name fw160.version) = false :=
  cancel_observed_never_creates_final_path 8192 fs0 optAll listingA envC1
    fw160 [] 100 rfl (by decide) rfl (by decide)

/-- Claim C6: for every non-empty firmware listing, if a file (or directory)
already exists at the computed final path, download_firmware returns the
already-downloaded skip outcome, leaves the filesystem unchanged, and performs
no network call (zero calls to download_ipsw). -/
theorem already_downloaded_skips
    (cap : Nat) (fs : FS) (opt : CliOpts) (fw : FirmwareListing) (env : Env)
    (f0 : Firmware) (fwtl : List Firmware)
    (hfw : fw.firmwares = f0 :: fwtl)
    (hex : pathExists fs (finalPathOf opt fw.name f0.version) = true) :
    download_firmware cap fs opt fw env =
      ⟨fs, Outcome.skippedAlreadyDownloaded, false, 0⟩ := by
  have hne : fw.firmwares.isEmpty = false := by rw [hfw]; rfl
  have hhead : fw.firmwares.headD defaultFirmware = f0 := by rw [hfw]; rfl
  simp only [download_firmware, hne, hhead, hex, Bool.false_eq_true, if_false, if_true]

/-- Witness for C6 at a concrete filesystem that already holds the file. -/
theorem already_downloaded_skips_witness :
    download_firmware 8192 ⟨[(finalPathA, [0])], []⟩ optAll listingA envC2 =
      ⟨⟨[(finalPathA, [0])], []⟩, Outcome.skippedAlreadyDownloaded, false, 0⟩ :=
  already_downloaded_skips 8192 ⟨[(finalPathA, [0])], []⟩ optAll listingA envC2
    fw160 [] rfl (by decide)

/-- Claim C2 (code bug, evaluated at the failing input): a stream that delivers
exactly its 100 declared bytes in one chunk and drains without cancellation
leaves a zero-length file at the final destination path, not a 100-byte one.
The BufWriter wrapping the temporary stage is never flushed before
`io::copy` reads the stage back through the independent `reopen()` handle, so
for any chunk smaller than the 8192-byte buffer capacity the staged bytes are
still sitting in the buffer and zero bytes reach the final file — the
situation the source itself flags with `warn!("Didn't copy any bytes to final
file!")`. -/
theorem unflushed_buffer_truncates_final :
    chunk100.length = 100 ∧
    (download_firmware 8192 fs0 optAll listingA envC2).outcome = Outcome.completed 0 ∧
    fileContents (download_firmware 8192 fs0 optAll listingA envC2).fs finalPathA =
      some [] := by
  refine ⟨by decide, ?_, ?_⟩ <;> decide

/-- Claim C3 (code bug, evaluated at the failing input): when `write_all` of a
chunk to the temporary stage fails, download_firmware prints
"Could not create file: ... skipping download..." but does not return — the
loop keeps consuming the stream, and on exhaustion the (truncated) stage is
still promoted: the outcome is a completion, not a Failed(IoError), and a file
is created at the final destination path. -/
theorem append_failure_not_failed_io :
    (download_firmware 8192 fs0 optAll listingA envC3).outcome = Outcome.completed 0 ∧
    (download_firmware 8192 fs0 optAll listingA envC3).outcome ≠ Outcome.failedIo ∧
    pathExists (download_firmware 8192 fs0 optAll listingA envC3).fs finalPathA = true := by
  refine ⟨?_, ?_, ?_⟩ <;> decide

/-- The per-device console lines the device loop prints when it runs to
completion: one progress line per device in order, then the summary line. -/
def progressLines (total : Nat) : Nat → List String → List OutLine
  | _, [] => [OutLine.finished]
  | done, n :: ns => OutLine.progress n (done + 1) total :: progressLines total (done + 1) ns

/-- When the device loop is not left early, every device increments the done
counter exactly once and gets one progress line in order, and exactly the
devices of the (already filtered) list have their firmware fetched. -/
theorem beginLoop_no_early (cap : Nat) (opt : CliOpts) (total : Nat) :
    ∀ (ds : List Device) (envs : List DeviceEnv) (fs : FS) (done : Nat),
    (beginLoop cap opt total fs done ds envs).early = false →
    (beginLoop cap opt total fs done ds envs).done = done + ds.length ∧
    (beginLoop cap opt total fs done ds envs).lines =
      progressLines total done (ds.map Device.name) ∧
    (beginLoop cap opt total fs done ds envs).fetched = ds.map Device.name := by
  intro ds
  induction ds with
  | nil =>
    intro envs fs done _
    exact ⟨rfl, rfl, rfl⟩
  | cons d t ih =>
    intro envs fs done h
    rw [beginLoop] at h ⊢
    by_cases hs : (deviceStep cap opt fs (envs.headD ⟨none, ⟨none, []⟩⟩)).2 = true
    · rw [if_pos hs] at h
      exact Bool.noConfusion h
    · rw [if_neg hs] at h ⊢
      obtain ⟨h1, h2, h3⟩ :=
        ih envs.tail (deviceStep cap opt fs (envs.headD ⟨none, ⟨none, []⟩⟩)).1 (done + 1) h
      refine ⟨?_, ?_, ?_⟩
      · show _ = done + (t.length + 1)
        rw [h1]
        omega
      · show OutLine.progress d.name (done + 1) total :: _ =
          progressLines total done (d.name :: t.map Device.name)
        rw [progressLines, h2]
      · show d.name :: _ = d.name :: t.map Device.name
        rw [h3]

/-- The summary line is printed precisely when the device loop is not left
through an early return (cancellation) or a panic unwind. -/
theorem beginLoop_finished_iff (cap : Nat) (opt : CliOpts) (total : Nat) :
    ∀ (ds : List Device) (envs : List DeviceEnv) (fs : FS) (done : Nat),
    (OutLine.finished ∈ (beginLoop cap opt total fs done ds envs).lines) ↔
    (beginLoop cap opt total fs done ds envs).early = false := by
  intro ds
  induction ds with
  | nil =>
    intro envs fs done
    exact ⟨fun _ => rfl, fun _ => List.mem_singleton.mpr rfl⟩
  | cons d t ih =>
    intro envs fs done
    rw [beginLoop]
    by_cases hs : (deviceStep cap opt fs (envs.headD ⟨none, ⟨none, []⟩⟩)).2 = true
    · rw [if_pos hs]
      constructor
      · intro h
        exact absurd h (List.not_mem_nil _)
      · intro h
        exact Bool.noConfusion h
    · rw [if_neg hs]
      constructor
      · intro h
        rcases List.mem_cons.mp h with h | h
        · exact absurd h (by simp)
        · exact (ih envs.tail _ (done + 1)).mp h
      · intro h
        exact List.mem_cons_of_mem _ ((ih envs.tail _ (done + 1)).mpr h)

/-- Claim C4 counterexample: in a run whose only download is interrupted by
ctrl-c the device loop stops early and no elapsed-time summary line is
emitted, contradicting the claim that the summary is emitted both on
completion and on cancellation. -/
theorem no_summary_after_cancellation :
    (Downloader.begin 8192 fs0 optAll [dev1] [envCancelDev]).early = true ∧
    OutLine.finished ∉ (Downloader.begin 8192 fs0 optAll [dev1] [envCancelDev]).lines := by
  refine ⟨by decide, ?_⟩
  intro h
  exact absurd h (by decide)

/-- Claim C4 (amended): the total-elapsed-time summary line is emitted after
the device loop exactly when the loop runs to completion; when the loop stops
early because cancellation was observed (or a stream error panicked), begin
returns before the summary line is printed. -/
theorem summary_iff_loop_completed (cap : Nat) (fs : FS) (opt : CliOpts)
    (devices : List Device) (envs : List DeviceEnv) :
    (OutLine.finished ∈ (Downloader.begin cap fs opt devices envs).lines) ↔
    (Downloader.begin cap fs opt devices envs).early = false := by
  rw [Downloader.begin]
  cases hf : opt.filter_term with
  | none => exact beginLoop_finished_iff cap opt devices.length devices envs fs 0
  | some filter =>
    exact beginLoop_finished_iff cap opt _ _ envs fs 0

/-- Claim C5 counterexample: the device whose download is aborted by the
cancellation signal is processed (its firmware is fetched and its download
started) but the done counter is not incremented and no done/total progress
line is emitted for it. -/
theorem no_progress_line_for_cancelled_device :
    (Downloader.begin 8192 fs0 optAll [dev1] [envCancelDev]).fetched = ["iPhone 1"] ∧
    (Downloader.begin 8192 fs0 optAll [dev1] [envCancelDev]).done = 0 ∧
    (Downloader.begin 8192 fs0 optAll [dev1] [envCancelDev]).lines = [] := by
  refine ⟨?_, ?_, ?_⟩ <;> decide

/-- Claim C5 (amended): for every device the loop finishes working on —
success, skip, or failure other than the early return on cancellation or a
panic — the done counter is incremented exactly once and one done/total
progress line is emitted, in device order; a device aborted by cancellation
gets neither. -/
theorem done_counter_and_progress_lines (cap : Nat) (opt : CliOpts) (total : Nat)
    (ds : List Device) (envs : List DeviceEnv) (fs : FS)
    (h : (beginLoop cap opt total fs 0 ds envs).early = false) :
    (beginLoop cap opt total fs 0 ds envs).done = ds.length ∧
    (beginLoop cap opt total fs 0 ds envs).lines =
      progressLines total 0 (ds.map Device.name) := by
  obtain ⟨h1, h2, _⟩ := beginLoop_no_early cap opt total ds envs fs 0 h
  exact ⟨by rw [h1]; exact Nat.zero_add _, h2⟩

/-- Witness for the amended C5 at a concrete completed run. -/
theorem done_counter_and_progress_lines_witness :
    (beginLoop 8192 optAll 1 fs0 0 [dev1] [envFetchErr]).done = 1 ∧
    (beginLoop 8192 optAll 1 fs0 0 [dev1] [envFetchErr]).lines =
      progressLines 1 0 ["iPhone 1"] :=
  done_counter_and_progress_lines 8192 optAll 1 [dev1] [envFetchErr] fs0 (by decide)

/-- Claim C7: in a run with a filter term set, the total-to-process counter
equals the number of devices whose display name contains the term as a
case-sensitive substring, and — when the loop is not cut short by
cancellation — exactly those devices, in catalog order, have their firmware
fetched. -/
theorem filter_selects_matching_devices (cap : Nat) (fs : FS) (opt : CliOpts)
    (devices : List Device) (envs : List DeviceEnv) (t : String)
    (hf : opt.filter_term = some t) :
    (Downloader.begin cap fs opt devices envs).total =
      (devices.filter (fun d => strContainsSub d.name t)).length ∧
    ((Downloader.begin cap fs opt devices envs).early = false →
      (Downloader.begin cap fs opt devices envs).fetched =
        (devices.filter (fun d => strContainsSub d.name t)).map Device.name) := by
  rw [Downloader.begin, hf]
  exact ⟨rfl, fun h => (beginLoop_no_early cap opt _ _ envs fs 0 h).2.2⟩

/-- Witness for C7 at Scenario C of the spec: filter "iPad" against
["iPhone 1", "iPad Pro"] selects exactly "iPad Pro" and the total is 1. -/
theorem filter_selects_matching_devices_witness :
    (Downloader.begin 8192 fs0 optFilterIPad [dev1, devIPad] [envFetchErr]).total = 1 ∧
    (Downloader.begin 8192 fs0 optFilterIPad [dev1, devIPad] [envFetchErr]).fetched =
      ["iPad Pro"] := by
  have h := filter_selects_matching_devices 8192 fs0 optFilterIPad [dev1, devIPad]
    [envFetchErr] "iPad" rfl
  exact ⟨h.1.trans (by decide), (h.2 (by decide)).trans (by decide)⟩

/-- Character-level facts about the sanitization: the sanitized character is a
fixed point of both replacement passes and is neither separator. -/
theorem sanitize_char_fixed (c : Char) :
    sanitizeSlash (sanitizeBackslash (sanitizeSlash c)) =
      sanitizeBackslash (sanitizeSlash c) ∧
    sanitizeBackslash (sanitizeBackslash (sanitizeSlash c)) =
      sanitizeBackslash (sanitizeSlash c) ∧
    ('/' == sanitizeBackslash (sanitizeSlash c)) = false ∧
    ('\\' == sanitizeBackslash (sanitizeSlash c)) = false := by
  by_cases h1 : c = '/'
  · subst h1; decide
  · by_cases h2 : c = '\\'
    · subst h2; decide
    · simp only [sanitizeSlash, sanitizeBackslash, if_neg h1, if_neg h2]
      refine ⟨trivial, trivial, ?_, ?_⟩
      · exact beq_eq_false_iff_ne.mpr (fun hz => h1 hz.symm)
      · exact beq_eq_false_iff_ne.mpr (fun hz => h2 hz.symm)

theorem contains_map_sanitized_eq_false (c : Char)
    (hc : ∀ x, (c == sanitizeBackslash (sanitizeSlash x)) = false) :
    ∀ l : List Char, ((l.map sanitizeSlash).map sanitizeBackslash).contains c = false := by
  intro l
  induction l with
  | nil => rfl
  | cons a t ih =>
    rw [List.map_cons, List.map_cons, List.contains_cons, Bool.or_eq_false_iff]
    exact ⟨hc a, ih⟩

/-- Claim C8: display-name sanitization is total and idempotent — for every
input string, the sanitized output contains neither `/` nor `\`, and applying
the sanitization twice yields the same result as applying it once. -/
theorem sanitize_total_idempotent (s : String) :
    (sanitizeName s).data.contains '/' = false ∧
    (sanitizeName s).data.contains '\\' = false ∧
    sanitizeName (sanitizeName s) = sanitizeName s := by
  refine ⟨contains_map_sanitized_eq_false '/' (fun x => (sanitize_char_fixed x).2.2.1) s.data,
    contains_map_sanitized_eq_false '\\' (fun x => (sanitize_char_fixed x).2.2.2) s.data, ?_⟩
  show String.mk _ = String.mk _
  congr 1
  show ((((s.data.map sanitizeSlash).map sanitizeBackslash).map sanitizeSlash).map
      sanitizeBackslash) = (s.data.map sanitizeSlash).map sanitizeBackslash
  simp only [List.map_map]
  refine List.map_congr_left ?_
  intro c _
  show sanitizeBackslash (sanitizeSlash (sanitizeBackslash (sanitizeSlash c))) =
    sanitizeBackslash (sanitizeSlash c)
  rw [(sanitize_char_fixed c).1, (sanitize_char_fixed c).2.1]

/-- Claim C9 counterexample: a fresh process constructs its first Downloader
successfully; after that instance is dropped the singleton flag is clear, yet
constructing a new one is not permitted — `ctrlc::set_handler` cannot rebind
the process-global hook, so the construction panics at the `.expect` instead
of returning a Downloader. -/
theorem rebind_after_drop_panics :
    downloaderNew ⟨false, 0⟩ = Except.ok ⟨true, 1⟩ ∧
    downloaderDrop ⟨true, 1⟩ = ⟨false, 1⟩ ∧
    (downloaderNew (downloaderDrop ⟨true, 1⟩)).isOk = false := by
  exact ⟨rfl, rfl, rfl⟩

/-- Claim C9 (amended): constructing a Downloader while another is alive in
the process fails fast by panicking on the singleton flag, before attempting
to register a second OS interrupt hook; after the live instance is dropped
the singleton flag no longer blocks construction, but the construction still
panics — now at binding the ctrl-c handler, which cannot be rebound in the
same process — so no second Downloader is ever successfully constructed in a
process lifetime. The hypotheses describe any state with a live downloader:
the flag is set and the hook that its construction installed is present. -/
theorem singleton_guard_no_rebind (st : ProcState)
    (h : st.downloaderCreated = true) (hh : st.hooksInstalled ≠ 0) :
    downloaderNew st = Except.error "Created two Downloader instances!" ∧
    downloaderNew (downloaderDrop st) =
      Except.error "Failed to make the ctrlc handle" := by
  constructor
  · rw [downloaderNew, if_pos h]
  · rw [downloaderNew, downloaderDrop]
    rw [if_neg (by exact Bool.noConfusion), if_pos (by simpa using hh)]

/-- Witness for the amended C9 at the state left by a first construction. -/
theorem singleton_guard_no_rebind_witness :
    downloaderNew ⟨true, 1⟩ = Except.error "Created two Downloader instances!" ∧
    downloaderNew (downloaderDrop ⟨true, 1⟩) =
      Except.error "Failed to make the ctrlc handle" :=
  singleton_guard_no_rebind ⟨true, 1⟩ rfl (by decide)

/-- Claim C10: display-name sanitization is not injective — the distinct
device names "a/b" and "azb" sanitize to the same string, so the two devices
are assigned the same destination directory under the download root. -/
theorem sanitization_not_injective :
    sanitizeName "a/b" = sanitizeName "azb" ∧
    "a/b" ≠ "azb" ∧
    deviceDir optAll (sanitizeName "a/b") = deviceDir optAll (sanitizeName "azb") := by
  refine ⟨?_, ?_, ?_⟩ <;> decide

end Ipswdl
